import Mathlib

/-
Verification development for the measured-boot handoff and layered-identity
core of caliptra-sw (FMC hand_off.rs, runtime main.rs and dice.rs, and the
fast-rom verification environment). Pure shallow embedding: machine words are
modelled as Nat, fatal halts as explicit error outcomes, and stateful code as
explicit state passing. Parts of the repository that the sources only call
into (the handle codec, the data-vault driver, the certificate builder) are
modelled from the specification and are marked as such in their doc comments.
-/

namespace Caliptra

/-- Error codes referenced by the embedded code paths. Constructors mirror the
caliptra_error constants named in the sources. The lock-violation and
invalid-handle-kind codes are modelled from the spec (error taxonomy of
section 7), since the error crate itself is not among the sources. -/
inductive CaliptraError where
  | FMC_HANDOFF_INVALID_PARAM
  | FMC_HANDOFF_NOT_READY_FOR_RT
  | ADDRESS_NOT_IN_ICCM
  | RUNTIME_HANDOFF_FHT_NOT_LOADED
  | RUNTIME_INSUFFICIENT_MEMORY
  | RUNTIME_GLOBAL_EXCEPTION
  | FHT_INVALID_HANDLE_KIND
  | DATA_VAULT_LOCK_VIOLATION
  | DRIVER_LOAD_FAILURE
  deriving DecidableEq, Repr

/-- Result type of fallible operations, mirroring CaliptraResult. -/
abbrev CaliptraResult (α : Type) := Except CaliptraError α

/-- Key vault slot identifier (KeyId0 .. KeyId31). -/
abbrev KeyId := Fin 32

/-- A 384-bit scalar (an ECC coordinate or signature component), abstracted. -/
abbrev Ecc384Scalar := Nat

/-- A 48-byte wide value (digest), abstracted. -/
abbrev Array4x12 := Nat

structure Ecc384PubKey where
  x : Ecc384Scalar
  y : Ecc384Scalar
  deriving DecidableEq, Repr

structure Ecc384Signature where
  r : Ecc384Scalar
  s : Ecc384Scalar
  deriving DecidableEq, Repr

/-- Typed data-store reference decoded from a handoff handle: either a
key-vault slot or a (sticky or non-sticky, small or wide) data-vault entry.
The constructors are exactly the DataStore variants matched by hand_off.rs. -/
inductive DataStore where
  | KeyVaultSlot (key_id : KeyId)
  | DataVaultNonSticky4 (entry : Nat)
  | DataVaultSticky4 (entry : Nat)
  | DataVaultNonSticky48 (entry : Nat)
  | DataVaultSticky48 (entry : Nat)
  deriving DecidableEq, Repr

/-- A handoff data handle is a 32-bit word carrying a kind tag and an index. -/
abbrev HandOffDataHandle := Nat

/-- Modelled from the spec: the all-ones marker of an absent handle (the
invalid handle kind of the spec, section 3). -/
def FHT_INVALID_HANDLE : Nat := 0xFFFFFFFF

/-- Vault selector recorded in the kind tag of a handle. -/
inductive Vault where
  | KeyVault
  | DataVault
  deriving DecidableEq, Repr

/-- Modelled from the spec: numeric discriminants of the vault selector inside
a handle. The sources only show (in key_id_to_handle) that the selector sits
at bit 12; the concrete discriminants stand in for the ones of the fht crate. -/
def Vault.toU32 : Vault → Nat
  | .KeyVault => 1
  | .DataVault => 2

/-- Modelled from the spec: decoding of a handoff handle into its kind tag and
index (spec section 3, Handle). Bits 12..16 hold the vault selector, bits 8..12
the data-vault register class (non-sticky small, sticky small, non-sticky wide,
sticky wide), bits 0..8 the slot index. This layout agrees with the encoder
key_id_to_handle that the sources do contain. A handle that carries no
recognised kind, including the all-ones invalid marker, fails to decode. -/
def HandOffDataHandle.tryInto (h : HandOffDataHandle) : Except CaliptraError DataStore :=
  let vault := (h >>> 12) &&& 0xF
  let reg_type := (h >>> 8) &&& 0xF
  let reg_num := h &&& 0xFF
  if vault = Vault.KeyVault.toU32 then
    if hk : reg_num < 32 then .ok (.KeyVaultSlot ⟨reg_num, hk⟩)
    else .error .FHT_INVALID_HANDLE_KIND
  else if vault = Vault.DataVault.toU32 then
    if reg_type = 1 then .ok (.DataVaultNonSticky4 reg_num)
    else if reg_type = 2 then .ok (.DataVaultSticky4 reg_num)
    else if reg_type = 3 then .ok (.DataVaultNonSticky48 reg_num)
    else if reg_type = 4 then .ok (.DataVaultSticky48 reg_num)
    else .error .FHT_INVALID_HANDLE_KIND
  else .error .FHT_INVALID_HANDLE_KIND

/-- Modelled from the spec: a handle is valid when it is present and of valid
kind (spec 4.2); the invalid marker and unrecognised kind tags are not valid. -/
def HandOffDataHandle.is_valid (h : HandOffDataHandle) : Bool :=
  match h.tryInto with
  | .ok _ => true
  | .error _ => false

/-- Firmware Handoff Table. Field set follows the accesses made by the
sources; handles are stored as raw words, the RT DICE public key and signature
are stored by value. -/
structure FirmwareHandoffTable where
  fht_marker : Nat
  fmc_cdi_kv_hdl : HandOffDataHandle
  fmc_pub_key_x_dv_hdl : HandOffDataHandle
  fmc_pub_key_y_dv_hdl : HandOffDataHandle
  fmc_priv_key_kv_hdl : HandOffDataHandle
  rt_cdi_kv_hdl : HandOffDataHandle
  rt_priv_key_kv_hdl : HandOffDataHandle
  rt_tci_dv_hdl : HandOffDataHandle
  rt_svn_dv_hdl : HandOffDataHandle
  rt_min_svn_dv_hdl : HandOffDataHandle
  rt_fw_entry_point_hdl : HandOffDataHandle
  rt_dice_pub_key : Ecc384PubKey
  rt_dice_sign : Ecc384Signature
  rtalias_tbs_size : Nat
  rt_hash_chain_max_svn : Nat
  rt_hash_chain_kv_hdl : HandOffDataHandle

/-- Modelled from the spec: the explicit validity marker value of the handoff
table (spec section 6); the concrete word stands in for the one of the crate. -/
def FHT_MARKER : Nat := 0x54484643

/-- Modelled from the spec: validity of the handoff table is signaled by an
explicit marker field checked before any field is trusted (spec section 6). -/
def FirmwareHandoffTable.is_valid (fht : FirmwareHandoffTable) : Bool :=
  fht.fht_marker == FHT_MARKER

/-- Data vault state. Slots are split along the two axes of the spec: sticky
(cold-reset) against non-sticky (warm-reset), and small (4-byte) against wide
(48-byte). Lock bits exist for the non-sticky small entries, which are the
only ones written by the sources. The two DICE signatures served by the
runtime certificate path are carried as dedicated fields. -/
structure DataVault where
  warm_reset_entry4 : Nat → Nat
  warm_reset_entry4_locked : Nat → Bool
  cold_reset_entry4 : Nat → Nat
  warm_reset_entry48 : Nat → Ecc384Scalar
  cold_reset_entry48 : Nat → Ecc384Scalar
  ldev_dice_sig : Ecc384Signature
  fmc_dice_sig : Ecc384Signature

def DataVault.read_warm_reset_entry4 (dv : DataVault) (entry : Nat) : Nat :=
  dv.warm_reset_entry4 entry

def DataVault.read_cold_reset_entry4 (dv : DataVault) (entry : Nat) : Nat :=
  dv.cold_reset_entry4 entry

def DataVault.read_warm_reset_entry48 (dv : DataVault) (entry : Nat) : Ecc384Scalar :=
  dv.warm_reset_entry48 entry

def DataVault.read_cold_reset_entry48 (dv : DataVault) (entry : Nat) : Ecc384Scalar :=
  dv.cold_reset_entry48 entry

def DataVault.ldev_dice_signature (dv : DataVault) : Ecc384Signature :=
  dv.ldev_dice_sig

def DataVault.fmc_dice_signature (dv : DataVault) : Ecc384Signature :=
  dv.fmc_dice_sig

/-- Modelled from the spec: writing a non-sticky slot that is already locked
is fatal (spec 4.1 and the lock invariant of section 3); otherwise exactly the
target slot changes, with no other side effect. -/
def DataVault.write_warm_reset_entry4 (dv : DataVault) (entry value : Nat) :
    Except CaliptraError DataVault :=
  if dv.warm_reset_entry4_locked entry then .error .DATA_VAULT_LOCK_VIOLATION
  else .ok { dv with warm_reset_entry4 := fun e => if e = entry then value else dv.warm_reset_entry4 e }

/-- Modelled from the spec: setting the lock bit of a non-sticky slot; the bit
stays set until a cold reset (spec section 3). -/
def DataVault.lock_warm_reset_entry4 (dv : DataVault) (entry : Nat) : DataVault :=
  { dv with warm_reset_entry4_locked := fun e => if e = entry then true else dv.warm_reset_entry4_locked e }

/-- Persistent data region holding the handoff table. -/
structure PersistentData where
  fht : FirmwareHandoffTable

/-- FMC environment: the persistent data (handoff table) and the data vault,
the only state the embedded hand_off.rs paths touch. -/
structure FmcEnv where
  persistent_data : PersistentData
  data_vault : DataVault

/-- Modelled from the spec: static region descriptor constants of the allowed
(ICCM) code region; the concrete origin and size are target constants not
present in the sources, so representative values are fixed here. -/
def memory_layout.ICCM_ORG : Nat := 0x40000000

/-- Modelled from the spec: size of the allowed code region. -/
def memory_layout.ICCM_SIZE : Nat := 0x20000

/-- Static memory bounds descriptor, mirroring the MemBounds trait data. -/
structure MemBounds where
  ORG : Nat
  SIZE : Nat
  ERROR : CaliptraError

/-- The ICCM bounds instance from hand_off.rs. -/
def IccmBounds : MemBounds :=
  { ORG := memory_layout.ICCM_ORG, SIZE := memory_layout.ICCM_SIZE,
    ERROR := .ADDRESS_NOT_IN_ICCM }

/-- Modelled from the spec: validation that an address lies in the static
allowed region, inclusive lower bound and exclusive upper bound (spec 4.3 and
the bounded-transfer property of section 8). -/
def MemBounds.validate_addr (b : MemBounds) (addr : Nat) : Except CaliptraError Unit :=
  if b.ORG ≤ addr ∧ addr < b.ORG + b.SIZE then .ok () else .error b.ERROR

/-- BoundedAddr validation specialised to the ICCM region, as used by to_rt. -/
def IccmAddr.validate_addr (addr : Nat) : Except CaliptraError Unit :=
  MemBounds.validate_addr IccmBounds addr

/-- Accessor of the handoff table inside the environment (HandOff::fht). -/
def HandOff.fht (env : FmcEnv) : FirmwareHandoffTable :=
  env.persistent_data.fht

/-- Embedding of HandOff::fmc_cdi. A call of handle_fatal_error is modelled as
the error outcome, which never yields a value to the caller. -/
def HandOff.fmc_cdi (env : FmcEnv) : Except CaliptraError KeyId :=
  match (HandOff.fht env).fmc_cdi_kv_hdl.tryInto with
  | .error e => .error e
  | .ok (.KeyVaultSlot key_id) => .ok key_id
  | .ok _ => .error .FMC_HANDOFF_INVALID_PARAM

/-- Embedding of HandOff::fmc_pub_key_x: a warm-reset or cold-reset wide
data-vault read selected by the recorded kind; any other kind is fatal. -/
def HandOff.fmc_pub_key_x (env : FmcEnv) : Except CaliptraError Ecc384Scalar :=
  match (HandOff.fht env).fmc_pub_key_x_dv_hdl.tryInto with
  | .error e => .error e
  | .ok (.DataVaultNonSticky48 dv_entry) => .ok (env.data_vault.read_warm_reset_entry48 dv_entry)
  | .ok (.DataVaultSticky48 dv_entry) => .ok (env.data_vault.read_cold_reset_entry48 dv_entry)
  | .ok _ => .error .FMC_HANDOFF_INVALID_PARAM

/-- Embedding of HandOff::fmc_pub_key_y. -/
def HandOff.fmc_pub_key_y (env : FmcEnv) : Except CaliptraError Ecc384Scalar :=
  match (HandOff.fht env).fmc_pub_key_y_dv_hdl.tryInto with
  | .error e => .error e
  | .ok (.DataVaultNonSticky48 dv_entry) => .ok (env.data_vault.read_warm_reset_entry48 dv_entry)
  | .ok (.DataVaultSticky48 dv_entry) => .ok (env.data_vault.read_cold_reset_entry48 dv_entry)
  | .ok _ => .error .FMC_HANDOFF_INVALID_PARAM

/-- Embedding of HandOff::fmc_pub_key, pairing the two coordinates. -/
def HandOff.fmc_pub_key (env : FmcEnv) : Except CaliptraError Ecc384PubKey :=
  match HandOff.fmc_pub_key_x env, HandOff.fmc_pub_key_y env with
  | .ok x, .ok y => .ok { x := x, y := y }
  | .error e, _ => .error e
  | _, .error e => .error e

/-- Embedding of HandOff::fmc_priv_key. -/
def HandOff.fmc_priv_key (env : FmcEnv) : Except CaliptraError KeyId :=
  match (HandOff.fht env).fmc_priv_key_kv_hdl.tryInto with
  | .error e => .error e
  | .ok (.KeyVaultSlot key_id) => .ok key_id
  | .ok _ => .error .FMC_HANDOFF_INVALID_PARAM

/-- Embedding of HandOff::rt_tci. -/
def HandOff.rt_tci (env : FmcEnv) : Except CaliptraError Array4x12 :=
  match (HandOff.fht env).rt_tci_dv_hdl.tryInto with
  | .error e => .error e
  | .ok (.DataVaultNonSticky48 dv_entry) => .ok (env.data_vault.read_warm_reset_entry48 dv_entry)
  | .ok (.DataVaultSticky48 dv_entry) => .ok (env.data_vault.read_cold_reset_entry48 dv_entry)
  | .ok _ => .error .FMC_HANDOFF_INVALID_PARAM

/-- Embedding of HandOff::rt_svn. -/
def HandOff.rt_svn (env : FmcEnv) : Except CaliptraError Nat :=
  match (HandOff.fht env).rt_svn_dv_hdl.tryInto with
  | .error e => .error e
  | .ok (.DataVaultNonSticky4 dv_entry) => .ok (env.data_vault.read_warm_reset_entry4 dv_entry)
  | .ok (.DataVaultSticky4 dv_entry) => .ok (env.data_vault.read_cold_reset_entry4 dv_entry)
  | .ok _ => .error .FMC_HANDOFF_INVALID_PARAM

/-- Embedding of HandOff::rt_min_svn: the data store must be a warm-reset
(non-sticky) small entry; every other kind, including the sticky one, is a
fatal kind mismatch. -/
def HandOff.rt_min_svn (env : FmcEnv) : Except CaliptraError Nat :=
  match (HandOff.fht env).rt_min_svn_dv_hdl.tryInto with
  | .error e => .error e
  | .ok (.DataVaultNonSticky4 dv_entry) => .ok (env.data_vault.read_warm_reset_entry4 dv_entry)
  | .ok _ => .error .FMC_HANDOFF_INVALID_PARAM

/-- Embedding of HandOff::rt_entry_point. -/
def HandOff.rt_entry_point (env : FmcEnv) : Except CaliptraError Nat :=
  match (HandOff.fht env).rt_fw_entry_point_hdl.tryInto with
  | .error e => .error e
  | .ok (.DataVaultNonSticky4 dv_entry) => .ok (env.data_vault.read_warm_reset_entry4 dv_entry)
  | .ok (.DataVaultSticky4 dv_entry) => .ok (env.data_vault.read_cold_reset_entry4 dv_entry)
  | .ok _ => .error .FMC_HANDOFF_INVALID_PARAM

/-- Outcome of the control transfer to the runtime firmware: either the
irreversible jump to a validated entry address, or a fatal halt. The function
never returns to its caller, which the outcome type makes structural. -/
inductive TransferOutcome where
  | jumped (entry : Nat)
  | halted (e : CaliptraError)
  deriving DecidableEq, Repr

/-- Embedding of HandOff::to_rt: read the entry point from the handoff table,
validate it against the ICCM bounds, and only then jump; a validation failure
is a fatal halt and the jump is never attempted. -/
def HandOff.to_rt (env : FmcEnv) : TransferOutcome :=
  match HandOff.rt_entry_point env with
  | .error e => .halted e
  | .ok rt_entry_point =>
    match IccmAddr.validate_addr rt_entry_point with
    | .ok _ => .jumped rt_entry_point
    | .error e => .halted e

/-- Outcome of a state-modifying FMC operation: a normal return carrying the
new environment and a result, or a fatal halt (handle_fatal_error), which
never returns; the environment at the halt is the state left behind. -/
inductive FmcStep (α : Type) where
  | ret (env : FmcEnv) (r : Except CaliptraError α)
  | halt (env : FmcEnv) (e : CaliptraError)

/-- Final environment of a step, whether it returned or halted. -/
def FmcStep.env {α : Type} : FmcStep α → FmcEnv
  | .ret env _ => env
  | .halt env _ => env

/-- Whether the step ended in the fatal halt policy. -/
def FmcStep.isHalted {α : Type} : FmcStep α → Bool
  | .ret _ _ => false
  | .halt _ _ => true

/-- Embedding of HandOff::set_and_lock_rt_min_svn: resolve the minimum-SVN
handle, require the non-sticky small kind, then write the slot and immediately
lock it before returning success. A kind mismatch or a write against an
already-locked slot is a fatal halt that leaves the vault untouched. -/
def HandOff.set_and_lock_rt_min_svn (env : FmcEnv) (min_svn : Nat) : FmcStep Unit :=
  match (HandOff.fht env).rt_min_svn_dv_hdl.tryInto with
  | .error e => .halt env e
  | .ok (.DataVaultNonSticky4 dv_entry) =>
    match env.data_vault.write_warm_reset_entry4 dv_entry min_svn with
    | .error e => .halt env e
    | .ok dv1 =>
      .ret { env with data_vault := dv1.lock_warm_reset_entry4 dv_entry } (.ok ())
  | .ok _ => .halt env .FMC_HANDOFF_INVALID_PARAM

/-- Embedding of HandOff::set_rt_dice_signature. -/
def HandOff.set_rt_dice_signature (env : FmcEnv) (sig : Ecc384Signature) : FmcEnv :=
  { env with persistent_data := { fht := { HandOff.fht env with rt_dice_sign := sig } } }

/-- Embedding of HandOff::set_rtalias_tbs_size. -/
def HandOff.set_rtalias_tbs_size (env : FmcEnv) (rtalias_tbs_size : Nat) : FmcEnv :=
  { env with persistent_data := { fht := { HandOff.fht env with rtalias_tbs_size := rtalias_tbs_size } } }

/-- Embedding of HandOff::key_id_to_handle: a key-vault handle with the vault
selector at bit 12 and the key id in the low bits. -/
def HandOff.key_id_to_handle (key_id : KeyId) : HandOffDataHandle :=
  (Vault.KeyVault.toU32 <<< 12) ||| key_id.val

/-- DICE flow output consumed by HandOff::update; the fields are the ones the
sources read (the chain CDI slot and the subject key pair). -/
structure Ecc384KeyPair where
  priv_key : KeyId
  pub_key : Ecc384PubKey

structure DiceOutput where
  cdi : KeyId
  subj_key_pair : Ecc384KeyPair

/-- Embedding of HandOff::update: store the RT CDI and RT private-key handles
and the RT DICE public key into the handoff table and return success. -/
def HandOff.update (env : FmcEnv) (out : DiceOutput) : FmcStep Unit :=
  .ret { env with persistent_data := { fht := { HandOff.fht env with
    rt_cdi_kv_hdl := HandOff.key_id_to_handle out.cdi,
    rt_priv_key_kv_hdl := HandOff.key_id_to_handle out.subj_key_pair.priv_key,
    rt_dice_pub_key := out.subj_key_pair.pub_key } } } (.ok ())

/-- Embedding of HandOff::is_ready_for_rt: successful exactly when the RT CDI
key-vault handle and the RT private-key key-vault handle are both valid. -/
def HandOff.is_ready_for_rt (env : FmcEnv) : Except CaliptraError Unit :=
  if (HandOff.fht env).rt_cdi_kv_hdl.is_valid && (HandOff.fht env).rt_priv_key_kv_hdl.is_valid then
    .ok ()
  else
    .error .FMC_HANDOFF_NOT_READY_FOR_RT

/-- Runtime driver bundle; the embedded entry path only consults the
persistent data (handoff table) inside it. -/
structure RtDrivers where
  persistent_data : PersistentData

/-- Outcome of the runtime entry point: a fatal halt before serving anything,
or reaching the mailbox command loop (whose own result follows the loop). -/
inductive RtOutcome where
  | halted (e : CaliptraError)
  | mailboxLoop (r : Except CaliptraError Unit)

/-- Embedding of the runtime entry_point of main.rs. Driver construction
failure halts fatally (both arms of the source match halt). The handoff-table
validity marker is then checked before any table field is read; only when the
marker is set does control reach the mailbox command loop, modelled by the
injected handler. -/
def entry_point (drivers_result : Except CaliptraError RtDrivers)
    (handle_mailbox_commands : RtDrivers → Except CaliptraError Unit) : RtOutcome :=
  match drivers_result with
  | .error e => .halted e
  | .ok drivers =>
    if ¬ drivers.persistent_data.fht.is_valid then
      .halted .RUNTIME_HANDOFF_FHT_NOT_LOADED
    else
      .mailboxLoop (handle_mailbox_commands drivers)

/-- Image digest input of the verification environment, abstracted. -/
abbrev ImageDigest := Nat

/-- ECC public key of an image bundle, abstracted. -/
abbrev ImageEccPubKey := Nat

/-- ECC signature of an image bundle, abstracted. -/
abbrev ImageEccSignature := Nat

/-- LMS public key of an image bundle, abstracted. -/
abbrev ImageLmsPublicKey := Nat

/-- LMS signature of an image bundle, abstracted. -/
abbrev ImageLmsSignature := Nat

inductive Ecc384Result where
  | Success
  | SigVerifyFailed
  deriving DecidableEq, Repr

inductive LmsResult where
  | Success
  | SigVerifyFailed
  deriving DecidableEq, Repr

/-- Fast-rom ROM image verification environment; only the state relevant to
the embedded behavior is retained. -/
structure RomImageVerificationEnv where
  data_vault : DataVault

/-- Embedding of the fast-rom ecc384_verify: a mock that ignores every input
and always reports success. -/
def RomImageVerificationEnv.ecc384_verify (_env : RomImageVerificationEnv)
    (_digest : ImageDigest) (_pub_key : ImageEccPubKey) (_sig : ImageEccSignature) :
    CaliptraResult Ecc384Result :=
  .ok .Success

/-- Embedding of the fast-rom lms_verify: a mock that ignores every input and
always reports success. -/
def RomImageVerificationEnv.lms_verify (_env : RomImageVerificationEnv)
    (_digest : ImageDigest) (_pub_key : ImageLmsPublicKey) (_sig : ImageLmsSignature) :
    CaliptraResult LmsResult :=
  .ok .Success

/-- Signature type accepted by the certificate builder (caliptra_x509),
distinct from the data-vault signature type as in the sources. -/
structure Ecdsa384Signature where
  r : Nat
  s : Nat
  deriving DecidableEq, Repr

/-- Modelled from the spec: internal state of the certificate builder, holding
the to-be-signed template and the signature to splice (spec 4.5). -/
structure Ecdsa384CertBuilder where
  tbs : List Nat
  sig : Ecdsa384Signature
  deriving DecidableEq, Repr

/-- Modelled from the spec: the fixed template length of the local device
identity certificate; the concrete value stands in for the target constant. -/
def LocalDevIdCertTbs.TBS_TEMPLATE_LEN : Nat := 4

/-- Modelled from the spec: the fixed template length of the FMC alias
certificate; the concrete value stands in for the target constant. -/
def FmcAliasCertTbs.TBS_TEMPLATE_LEN : Nat := 6

/-- Modelled from the spec: builder construction fails when the internal state
cannot be constructed from the inputs, the representative condition being a
template length mismatch against the fixed expected length (spec 4.5). -/
def Ecdsa384CertBuilder.new (expected_len : Nat) (tbs : List Nat) (sig : Ecdsa384Signature) :
    Option Ecdsa384CertBuilder :=
  if tbs.length = expected_len then some { tbs := tbs, sig := sig } else none

/-- Modelled from the spec: the finished certificate is the template with the
signature spliced into its reserved (trailing) field (spec 4.5; the source
comment describes appending the signature to the copied template). -/
def Ecdsa384CertBuilder.cert_bytes (b : Ecdsa384CertBuilder) : List Nat :=
  b.tbs ++ [b.sig.r, b.sig.s]

/-- Modelled from the spec: emitting the certificate into a caller buffer
returns the emitted size and the updated buffer when the buffer can hold the
whole certificate, and fails without writing otherwise; a truncated write is
never produced (spec 4.5). -/
def Ecdsa384CertBuilder.build (b : Ecdsa384CertBuilder) (buf : List Nat) :
    Option (Nat × List Nat) :=
  let out := b.cert_bytes
  if out.length ≤ buf.length then some (out.length, out ++ buf.drop out.length) else none

/-- Certificate selector of dice.rs. -/
inductive CertType where
  | LDevId
  | FmcAlias
  deriving DecidableEq, Repr

/-- Contents of the DCCM template regions referenced by dice.rs (the extern
statics LDEVID_TBS_ORG and FMCALIAS_TBS_ORG), passed explicitly. -/
structure RtCertEnv where
  ldevid_tbs_org : List Nat
  fmcalias_tbs_org : List Nat

/-- Expected template length per certificate type. -/
def CertType.tbs_template_len : CertType → Nat
  | .LDevId => LocalDevIdCertTbs.TBS_TEMPLATE_LEN
  | .FmcAlias => FmcAliasCertTbs.TBS_TEMPLATE_LEN

/-- Template bytes selected for a certificate type. -/
def CertType.tbs_of : CertType → RtCertEnv → List Nat
  | .LDevId, env => env.ldevid_tbs_org
  | .FmcAlias, env => env.fmcalias_tbs_org

/-- Vault signature selected for a certificate type. -/
def CertType.sig_of : CertType → DataVault → Ecc384Signature
  | .LDevId, dv => dv.ldev_dice_signature
  | .FmcAlias, dv => dv.fmc_dice_signature

/-- The full certificate a given environment determines for a type: template
plus spliced signature. -/
def CertType.full_cert (ct : CertType) (env : RtCertEnv) (dv : DataVault) : List Nat :=
  Ecdsa384CertBuilder.cert_bytes
    { tbs := ct.tbs_of env, sig := { r := (ct.sig_of dv).r, s := (ct.sig_of dv).s } }

/-- Embedding of cert_from_dccm of dice.rs: select the template and vault
signature for the certificate type, construct the builder, and emit into the
caller buffer; a failed construction or an undersized buffer yields the
insufficient-memory error. The returned pair is the emitted size and the
resulting buffer contents. -/
def cert_from_dccm (env : RtCertEnv) (dv : DataVault) (cert : List Nat) (cert_type : CertType) :
    Except CaliptraError (Nat × List Nat) :=
  let tbs_sig : List Nat × Ecc384Signature :=
    match cert_type with
    | .LDevId => (env.ldevid_tbs_org, dv.ldev_dice_signature)
    | .FmcAlias => (env.fmcalias_tbs_org, dv.fmc_dice_signature)
  let bldr_sig : Ecdsa384Signature := { r := tbs_sig.2.r, s := tbs_sig.2.s }
  match Ecdsa384CertBuilder.new cert_type.tbs_template_len tbs_sig.1 bldr_sig with
  | none => .error .RUNTIME_INSUFFICIENT_MEMORY
  | some builder =>
    match builder.build cert with
    | none => .error .RUNTIME_INSUFFICIENT_MEMORY
    | some size_out => .ok size_out

/-- Embedding of copy_ldevid_cert. -/
def copy_ldevid_cert (env : RtCertEnv) (dv : DataVault) (cert : List Nat) :
    Except CaliptraError (Nat × List Nat) :=
  cert_from_dccm env dv cert .LDevId

/-- Embedding of copy_fmc_alias_cert. -/
def copy_fmc_alias_cert (env : RtCertEnv) (dv : DataVault) (cert : List Nat) :
    Except CaliptraError (Nat × List Nat) :=
  cert_from_dccm env dv cert .FmcAlias

/-- View of a certificate-build result keeping only what the caller observes
as the certificate: the emitted size and the first size bytes of the buffer. -/
def cert_emitted (r : Except CaliptraError (Nat × List Nat)) :
    Except CaliptraError (Nat × List Nat) :=
  match r with
  | .ok (size, out) => .ok (size, out.take size)
  | .error e => .error e

/-- Baseline handoff table for concrete scenarios: marker set, every handle
absent, every value field zero. -/
def fht0 : FirmwareHandoffTable :=
  { fht_marker := FHT_MARKER
    fmc_cdi_kv_hdl := FHT_INVALID_HANDLE
    fmc_pub_key_x_dv_hdl := FHT_INVALID_HANDLE
    fmc_pub_key_y_dv_hdl := FHT_INVALID_HANDLE
    fmc_priv_key_kv_hdl := FHT_INVALID_HANDLE
    rt_cdi_kv_hdl := FHT_INVALID_HANDLE
    rt_priv_key_kv_hdl := FHT_INVALID_HANDLE
    rt_tci_dv_hdl := FHT_INVALID_HANDLE
    rt_svn_dv_hdl := FHT_INVALID_HANDLE
    rt_min_svn_dv_hdl := FHT_INVALID_HANDLE
    rt_fw_entry_point_hdl := FHT_INVALID_HANDLE
    rt_dice_pub_key := { x := 0, y := 0 }
    rt_dice_sign := { r := 0, s := 0 }
    rtalias_tbs_size := 0
    rt_hash_chain_max_svn := 0
    rt_hash_chain_kv_hdl := FHT_INVALID_HANDLE }

/-- Baseline data vault for concrete scenarios: all slots zero and unlocked. -/
def dv0 : DataVault :=
  { warm_reset_entry4 := fun _ => 0
    warm_reset_entry4_locked := fun _ => false
    cold_reset_entry4 := fun _ => 0
    warm_reset_entry48 := fun _ => 0
    cold_reset_entry48 := fun _ => 0
    ldev_dice_sig := { r := 0, s := 0 }
    fmc_dice_sig := { r := 0, s := 0 } }

/-- Baseline FMC environment for concrete scenarios. -/
def env0 : FmcEnv :=
  { persistent_data := { fht := fht0 }, data_vault := dv0 }

/-- Scenario for C1: both handles the readiness gate actually checks (RT CDI
and RT private key) are valid key-vault handles, while the RT DICE public key
value is zero (absent) and the table has no public-key handle at all. -/
def c1_env : FmcEnv :=
  { env0 with persistent_data :=
    { fht := { fht0 with rt_cdi_kv_hdl := 0x1000, rt_priv_key_kv_hdl := 0x1001 } } }

/-- Scenario for C1 (amended direction): only the CDI handle is valid, the
private-key handle is absent. -/
def c1_not_ready_env : FmcEnv :=
  { env0 with persistent_data := { fht := { fht0 with rt_cdi_kv_hdl := 0x1000 } } }

/-- Scenario for C2: the minimum-SVN handle resolves to non-sticky small slot
0, which is already locked and holds the value 3. -/
def c2_env : FmcEnv :=
  { persistent_data := { fht := { fht0 with rt_min_svn_dv_hdl := 0x2100 } }
    data_vault := { dv0 with
      warm_reset_entry4 := fun _ => 3
      warm_reset_entry4_locked := fun _ => true } }

/-- Scenario for C3: each handle carries a kind that mismatches what the
accessor reading it requires. -/
def c3_env : FmcEnv :=
  { env0 with persistent_data := { fht := { fht0 with
      fmc_cdi_kv_hdl := 0x2100
      fmc_pub_key_x_dv_hdl := 0x1000
      fmc_pub_key_y_dv_hdl := 0x1000
      fmc_priv_key_kv_hdl := 0x2100
      rt_tci_dv_hdl := 0x1000
      rt_svn_dv_hdl := 0x1000
      rt_min_svn_dv_hdl := 0x2200
      rt_fw_entry_point_hdl := 0x1000 } } }

/-- Scenario for C4: entry point one below the region origin. -/
def c4_env_low : FmcEnv :=
  { persistent_data := { fht := { fht0 with rt_fw_entry_point_hdl := 0x2100 } }
    data_vault := { dv0 with warm_reset_entry4 := fun _ => 0x3FFFFFFF } }

/-- Scenario for C4: entry point exactly at origin plus size. -/
def c4_env_high : FmcEnv :=
  { persistent_data := { fht := { fht0 with rt_fw_entry_point_hdl := 0x2100 } }
    data_vault := { dv0 with warm_reset_entry4 := fun _ => 0x40020000 } }

/-- Scenario for C4: entry point at the region origin, inside the region. -/
def c4_env_in : FmcEnv :=
  { persistent_data := { fht := { fht0 with rt_fw_entry_point_hdl := 0x2100 } }
    data_vault := { dv0 with warm_reset_entry4 := fun _ => 0x40000000 } }

/-- Scenario for C6: a driver bundle whose handoff table marker is not set. -/
def c6_drivers : RtDrivers :=
  { persistent_data := { fht := { fht0 with fht_marker := 0 } } }

/-- Scenario for C7: kind tags selecting the warm path for the X coordinate
and the minimum SVN, the cold path for the Y coordinate, and a key-vault slot
for the CDI. -/
def c7_env : FmcEnv :=
  { persistent_data := { fht := { fht0 with
      fmc_cdi_kv_hdl := 0x1005
      fmc_pub_key_x_dv_hdl := 0x2300
      fmc_pub_key_y_dv_hdl := 0x2400
      rt_min_svn_dv_hdl := 0x2100 } }
    data_vault := { dv0 with
      warm_reset_entry4 := fun _ => 7
      warm_reset_entry48 := fun _ => 11
      cold_reset_entry48 := fun _ => 22 } }

/-- Scenario for C7: a minimum-SVN handle of the sticky kind, which the
accessor must treat as a fatal kind mismatch. -/
def c7_env2 : FmcEnv :=
  { env0 with persistent_data := { fht := { fht0 with rt_min_svn_dv_hdl := 0x2200 } } }

/-- Scenario for C8 and C9: template regions of the expected lengths. -/
def c8_rce : RtCertEnv :=
  { ldevid_tbs_org := [1, 2, 3, 4], fmcalias_tbs_org := [1, 2, 3, 4, 5, 6] }

/-- Scenario for C8: a local-device-identity template of the wrong length. -/
def c8_rce_bad : RtCertEnv :=
  { ldevid_tbs_org := [1], fmcalias_tbs_org := [1, 2, 3, 4, 5, 6] }

/-- Data vault with distinguishable DICE signatures for C8 and C9. -/
def dvC : DataVault :=
  { dv0 with ldev_dice_sig := { r := 7, s := 8 }, fmc_dice_sig := { r := 9, s := 10 } }

/-- Handle round-trip: the encoder of the sources and the spec-modelled
decoder agree, so a handle written by key_id_to_handle resolves to the
key-vault slot it was made from. -/
theorem tryInto_key_id_to_handle (k : KeyId) :
    (HandOff.key_id_to_handle k).tryInto = .ok (.KeyVaultSlot k) := by
  fin_cases k <;> rfl

/-- C10: HandOff::update always returns Ok and modifies exactly the RT CDI
handle, the RT private-key handle and the RT DICE public key of the handoff
table, leaving every other table field and the whole data vault unchanged;
the two stored handles decode to key-vault slots carrying the given key ids. -/
theorem update_frame (env : FmcEnv) (out : DiceOutput) :
    HandOff.update env out =
      FmcStep.ret { env with persistent_data := { fht := { HandOff.fht env with
        rt_cdi_kv_hdl := HandOff.key_id_to_handle out.cdi,
        rt_priv_key_kv_hdl := HandOff.key_id_to_handle out.subj_key_pair.priv_key,
        rt_dice_pub_key := out.subj_key_pair.pub_key } } } (.ok ()) ∧
    (HandOff.key_id_to_handle out.cdi).tryInto = .ok (.KeyVaultSlot out.cdi) ∧
    (HandOff.key_id_to_handle out.subj_key_pair.priv_key).tryInto =
      .ok (.KeyVaultSlot out.subj_key_pair.priv_key) :=
  ⟨rfl, tryInto_key_id_to_handle out.cdi, tryInto_key_id_to_handle out.subj_key_pair.priv_key⟩

/-- C5: in the fast-rom configuration, ecc384_verify and lms_verify report
success for every digest, public key and signature, so a caller cannot
distinguish a mocked success from a real one. -/
theorem fast_rom_verify_mocked :
    (∀ (env : RomImageVerificationEnv) (d : ImageDigest) (pk : ImageEccPubKey)
      (s : ImageEccSignature), env.ecc384_verify d pk s = .ok .Success) ∧
    (∀ (env : RomImageVerificationEnv) (d : ImageDigest) (pk : ImageLmsPublicKey)
      (s : ImageLmsSignature), env.lms_verify d pk s = .ok .Success) :=
  ⟨fun _ _ _ _ => rfl, fun _ _ _ _ => rfl⟩

/-- C1 counterexample: the readiness gate succeeds in a state whose RT DICE
public key is the zero (absent) value; the handoff table carries the public
key by value, has no public-key handle, and the gate never consults it, so
success does not require a present and valid public-key handle as claimed. -/
theorem is_ready_for_rt_ignores_pub_key :
    HandOff.is_ready_for_rt c1_env = .ok () ∧
    c1_env.persistent_data.fht.rt_dice_pub_key = { x := 0, y := 0 } :=
  ⟨rfl, rfl⟩

/-- C1 (amended): is_ready_for_rt succeeds exactly when the RT CDI key-store
handle and the RT private-key key-store handle are both valid, and reports
FMC_HANDOFF_NOT_READY_FOR_RT whenever the private-key handle is invalid; the
public key is passed by value and is not part of the gate. -/
theorem is_ready_for_rt_checks_cdi_and_priv_key (env : FmcEnv) :
    (HandOff.is_ready_for_rt env = .ok () ↔
      (HandOff.fht env).rt_cdi_kv_hdl.is_valid = true ∧
      (HandOff.fht env).rt_priv_key_kv_hdl.is_valid = true) ∧
    ((HandOff.fht env).rt_priv_key_kv_hdl.is_valid = false →
      HandOff.is_ready_for_rt env = .error .FMC_HANDOFF_NOT_READY_FOR_RT) := by
  unfold HandOff.is_ready_for_rt
  cases h1 : (HandOff.fht env).rt_cdi_kv_hdl.is_valid <;>
    cases h2 : (HandOff.fht env).rt_priv_key_kv_hdl.is_valid <;> simp

/-- C1 witness: with only the CDI handle valid, the gate reports not-ready. -/
theorem is_ready_for_rt_checks_cdi_and_priv_key_witness :
    HandOff.is_ready_for_rt c1_not_ready_env = .error .FMC_HANDOFF_NOT_READY_FOR_RT :=
  (is_ready_for_rt_checks_cdi_and_priv_key c1_not_ready_env).2 rfl

/-- C2: set_and_lock_rt_min_svn is atomic for the caller. Whenever the call
halts fatally, the whole environment (in particular the minimum-SVN slot and
its lock bit) is exactly as before the call; whenever it returns, it returns
success with the slot holding the new value and locked, starting from an
unlocked slot. A call against an already-locked slot halts fatally, leaving
the old value in place and the slot locked. No outcome shows the slot written
but unlocked. -/
theorem set_and_lock_rt_min_svn_atomic (env : FmcEnv) (v : Nat) :
    (∀ env2 e, HandOff.set_and_lock_rt_min_svn env v = .halt env2 e → env2 = env) ∧
    (∀ env2 r, HandOff.set_and_lock_rt_min_svn env v = .ret env2 r →
      r = .ok () ∧ ∃ entry,
        (HandOff.fht env).rt_min_svn_dv_hdl.tryInto = .ok (.DataVaultNonSticky4 entry) ∧
        env.data_vault.warm_reset_entry4_locked entry = false ∧
        env2.data_vault.warm_reset_entry4 entry = v ∧
        env2.data_vault.warm_reset_entry4_locked entry = true) ∧
    (∀ entry, (HandOff.fht env).rt_min_svn_dv_hdl.tryInto = .ok (.DataVaultNonSticky4 entry) →
      env.data_vault.warm_reset_entry4_locked entry = true →
      HandOff.set_and_lock_rt_min_svn env v = .halt env .DATA_VAULT_LOCK_VIOLATION) := by
  unfold HandOff.set_and_lock_rt_min_svn
  cases hds : (HandOff.fht env).rt_min_svn_dv_hdl.tryInto with
  | error e0 =>
    refine ⟨?_, ?_, ?_⟩
    · intro env2 e h
      cases h
      rfl
    · intro env2 r h
      cases h
    · intro entry h
      cases h
  | ok ds =>
    cases ds with
    | DataVaultNonSticky4 entry =>
      dsimp only
      unfold DataVault.write_warm_reset_entry4
      by_cases hlock : env.data_vault.warm_reset_entry4_locked entry = true
      · rw [if_pos hlock]
        dsimp only
        refine ⟨?_, ?_, ?_⟩
        · intro env2 e h
          cases h
          rfl
        · intro env2 r h
          cases h
        · intro entry2 h2 _
          cases h2
          rfl
      · rw [if_neg hlock]
        dsimp only
        simp only [Bool.not_eq_true] at hlock
        refine ⟨?_, ?_, ?_⟩
        · intro env2 e h
          cases h
        · intro env2 r h
          cases h
          refine ⟨rfl, entry, rfl, hlock, ?_, ?_⟩
          · simp [DataVault.lock_warm_reset_entry4]
          · simp [DataVault.lock_warm_reset_entry4]
        · intro entry2 h2 hl2
          cases h2
          rw [hlock] at hl2
          cases hl2
    | KeyVaultSlot k =>
      refine ⟨?_, ?_, ?_⟩
      · intro env2 e h
        cases h
        rfl
      · intro env2 r h
        cases h
      · intro entry h
        cases h
    | DataVaultSticky4 entry =>
      refine ⟨?_, ?_, ?_⟩
      · intro env2 e h
        cases h
        rfl
      · intro env2 r h
        cases h
      · intro entry2 h
        cases h
    | DataVaultNonSticky48 entry =>
      refine ⟨?_, ?_, ?_⟩
      · intro env2 e h
        cases h
        rfl
      · intro env2 r h
        cases h
      · intro entry2 h
        cases h
    | DataVaultSticky48 entry =>
      refine ⟨?_, ?_, ?_⟩
      · intro env2 e h
        cases h
        rfl
      · intro env2 r h
        cases h
      · intro entry2 h
        cases h

/-- C2 witness: with the minimum-SVN slot locked at value 3, an attempt to
set-and-lock 5 halts fatally with the lock violation and the state after the
halt still shows value 3 and the lock set. -/
theorem set_and_lock_rt_min_svn_atomic_witness :
    HandOff.set_and_lock_rt_min_svn c2_env 5 = .halt c2_env .DATA_VAULT_LOCK_VIOLATION ∧
    c2_env.data_vault.warm_reset_entry4 0 = 3 ∧
    c2_env.data_vault.warm_reset_entry4_locked 0 = true :=
  ⟨(set_and_lock_rt_min_svn_atomic c2_env 5).2.2 0 rfl rfl, rfl, rfl⟩

/-- C3: whenever the stored handle of a handoff-table accessor decodes to a
kind that does not match what the field requires, the accessor ends in the
fatal halt with FMC_HANDOFF_INVALID_PARAM, for all eight accessors; no
default or coerced value is ever produced. -/
theorem accessors_fatal_on_kind_mismatch (env : FmcEnv) (ds : DataStore) :
    ((HandOff.fht env).fmc_cdi_kv_hdl.tryInto = .ok ds →
      (∀ k, ds ≠ .KeyVaultSlot k) →
      HandOff.fmc_cdi env = .error .FMC_HANDOFF_INVALID_PARAM) ∧
    ((HandOff.fht env).fmc_pub_key_x_dv_hdl.tryInto = .ok ds →
      (∀ e, ds ≠ .DataVaultNonSticky48 e) → (∀ e, ds ≠ .DataVaultSticky48 e) →
      HandOff.fmc_pub_key_x env = .error .FMC_HANDOFF_INVALID_PARAM) ∧
    ((HandOff.fht env).fmc_pub_key_y_dv_hdl.tryInto = .ok ds →
      (∀ e, ds ≠ .DataVaultNonSticky48 e) → (∀ e, ds ≠ .DataVaultSticky48 e) →
      HandOff.fmc_pub_key_y env = .error .FMC_HANDOFF_INVALID_PARAM) ∧
    ((HandOff.fht env).fmc_priv_key_kv_hdl.tryInto = .ok ds →
      (∀ k, ds ≠ .KeyVaultSlot k) →
      HandOff.fmc_priv_key env = .error .FMC_HANDOFF_INVALID_PARAM) ∧
    ((HandOff.fht env).rt_tci_dv_hdl.tryInto = .ok ds →
      (∀ e, ds ≠ .DataVaultNonSticky48 e) → (∀ e, ds ≠ .DataVaultSticky48 e) →
      HandOff.rt_tci env = .error .FMC_HANDOFF_INVALID_PARAM) ∧
    ((HandOff.fht env).rt_svn_dv_hdl.tryInto = .ok ds →
      (∀ e, ds ≠ .DataVaultNonSticky4 e) → (∀ e, ds ≠ .DataVaultSticky4 e) →
      HandOff.rt_svn env = .error .FMC_HANDOFF_INVALID_PARAM) ∧
    ((HandOff.fht env).rt_min_svn_dv_hdl.tryInto = .ok ds →
      (∀ e, ds ≠ .DataVaultNonSticky4 e) →
      HandOff.rt_min_svn env = .error .FMC_HANDOFF_INVALID_PARAM) ∧
    ((HandOff.fht env).rt_fw_entry_point_hdl.tryInto = .ok ds →
      (∀ e, ds ≠ .DataVaultNonSticky4 e) → (∀ e, ds ≠ .DataVaultSticky4 e) →
      HandOff.rt_entry_point env = .error .FMC_HANDOFF_INVALID_PARAM) := by
  refine ⟨?_, ?_, ?_, ?_, ?_, ?_, ?_, ?_⟩
  · intro h hk
    cases ds with
    | KeyVaultSlot k => exact absurd rfl (hk k)
    | DataVaultNonSticky4 e => simp [HandOff.fmc_cdi, h]
    | DataVaultSticky4 e => simp [HandOff.fmc_cdi, h]
    | DataVaultNonSticky48 e => simp [HandOff.fmc_cdi, h]
    | DataVaultSticky48 e => simp [HandOff.fmc_cdi, h]
  · intro h h1 h2
    cases ds with
    | KeyVaultSlot k => simp [HandOff.fmc_pub_key_x, h]
    | DataVaultNonSticky4 e => simp [HandOff.fmc_pub_key_x, h]
    | DataVaultSticky4 e => simp [HandOff.fmc_pub_key_x, h]
    | DataVaultNonSticky48 e => exact absurd rfl (h1 e)
    | DataVaultSticky48 e => exact absurd rfl (h2 e)
  · intro h h1 h2
    cases ds with
    | KeyVaultSlot k => simp [HandOff.fmc_pub_key_y, h]
    | DataVaultNonSticky4 e => simp [HandOff.fmc_pub_key_y, h]
    | DataVaultSticky4 e => simp [HandOff.fmc_pub_key_y, h]
    | DataVaultNonSticky48 e => exact absurd rfl (h1 e)
    | DataVaultSticky48 e => exact absurd rfl (h2 e)
  · intro h hk
    cases ds with
    | KeyVaultSlot k => exact absurd rfl (hk k)
    | DataVaultNonSticky4 e => simp [HandOff.fmc_priv_key, h]
    | DataVaultSticky4 e => simp [HandOff.fmc_priv_key, h]
    | DataVaultNonSticky48 e => simp [HandOff.fmc_priv_key, h]
    | DataVaultSticky48 e => simp [HandOff.fmc_priv_key, h]
  · intro h h1 h2
    cases ds with
    | KeyVaultSlot k => simp [HandOff.rt_tci, h]
    | DataVaultNonSticky4 e => simp [HandOff.rt_tci, h]
    | DataVaultSticky4 e => simp [HandOff.rt_tci, h]
    | DataVaultNonSticky48 e => exact absurd rfl (h1 e)
    | DataVaultSticky48 e => exact absurd rfl (h2 e)
  · intro h h1 h2
    cases ds with
    | KeyVaultSlot k => simp [HandOff.rt_svn, h]
    | DataVaultNonSticky4 e => exact absurd rfl (h1 e)
    | DataVaultSticky4 e => exact absurd rfl (h2 e)
    | DataVaultNonSticky48 e => simp [HandOff.rt_svn, h]
    | DataVaultSticky48 e => simp [HandOff.rt_svn, h]
  · intro h h1
    cases ds with
    | KeyVaultSlot k => simp [HandOff.rt_min_svn, h]
    | DataVaultNonSticky4 e => exact absurd rfl (h1 e)
    | DataVaultSticky4 e => simp [HandOff.rt_min_svn, h]
    | DataVaultNonSticky48 e => simp [HandOff.rt_min_svn, h]
    | DataVaultSticky48 e => simp [HandOff.rt_min_svn, h]
  · intro h h1 h2
    cases ds with
    | KeyVaultSlot k => simp [HandOff.rt_entry_point, h]
    | DataVaultNonSticky4 e => exact absurd rfl (h1 e)
    | DataVaultSticky4 e => exact absurd rfl (h2 e)
    | DataVaultNonSticky48 e => simp [HandOff.rt_entry_point, h]
    | DataVaultSticky48 e => simp [HandOff.rt_entry_point, h]

/-- C3 witness: a concrete environment whose eight handles all carry
mismatched kinds makes every accessor report FMC_HANDOFF_INVALID_PARAM. -/
theorem accessors_fatal_on_kind_mismatch_witness :
    HandOff.fmc_cdi c3_env = .error .FMC_HANDOFF_INVALID_PARAM ∧
    HandOff.fmc_pub_key_x c3_env = .error .FMC_HANDOFF_INVALID_PARAM ∧
    HandOff.fmc_pub_key_y c3_env = .error .FMC_HANDOFF_INVALID_PARAM ∧
    HandOff.fmc_priv_key c3_env = .error .FMC_HANDOFF_INVALID_PARAM ∧
    HandOff.rt_tci c3_env = .error .FMC_HANDOFF_INVALID_PARAM ∧
    HandOff.rt_svn c3_env = .error .FMC_HANDOFF_INVALID_PARAM ∧
    HandOff.rt_min_svn c3_env = .error .FMC_HANDOFF_INVALID_PARAM ∧
    HandOff.rt_entry_point c3_env = .error .FMC_HANDOFF_INVALID_PARAM := by
  refine ⟨?_, ?_, ?_, ?_, ?_, ?_, ?_, ?_⟩
  · exact (accessors_fatal_on_kind_mismatch c3_env (.DataVaultNonSticky4 0)).1 rfl
      (fun k h => nomatch h)
  · exact (accessors_fatal_on_kind_mismatch c3_env (.KeyVaultSlot 0)).2.1 rfl
      (fun e h => nomatch h) (fun e h => nomatch h)
  · exact (accessors_fatal_on_kind_mismatch c3_env (.KeyVaultSlot 0)).2.2.1 rfl
      (fun e h => nomatch h) (fun e h => nomatch h)
  · exact (accessors_fatal_on_kind_mismatch c3_env (.DataVaultNonSticky4 0)).2.2.2.1 rfl
      (fun k h => nomatch h)
  · exact (accessors_fatal_on_kind_mismatch c3_env (.KeyVaultSlot 0)).2.2.2.2.1 rfl
      (fun e h => nomatch h) (fun e h => nomatch h)
  · exact (accessors_fatal_on_kind_mismatch c3_env (.KeyVaultSlot 0)).2.2.2.2.2.1 rfl
      (fun e h => nomatch h) (fun e h => nomatch h)
  · exact (accessors_fatal_on_kind_mismatch c3_env (.DataVaultSticky4 0)).2.2.2.2.2.2.1 rfl
      (fun e h => nomatch h)
  · exact (accessors_fatal_on_kind_mismatch c3_env (.KeyVaultSlot 0)).2.2.2.2.2.2.2 rfl
      (fun e h => nomatch h) (fun e h => nomatch h)

/-- C4: to_rt jumps only to an entry address inside the allowed code region
[ICCM_ORG, ICCM_ORG + ICCM_SIZE); every out-of-region entry address makes it
halt fatally with ADDRESS_NOT_IN_ICCM without attempting the jump, and the
outcome type has no returning alternative. -/
theorem to_rt_bounded (env : FmcEnv) :
    (∀ a, HandOff.to_rt env = .jumped a →
      HandOff.rt_entry_point env = .ok a ∧
      memory_layout.ICCM_ORG ≤ a ∧ a < memory_layout.ICCM_ORG + memory_layout.ICCM_SIZE) ∧
    (∀ a, HandOff.rt_entry_point env = .ok a →
      ¬(memory_layout.ICCM_ORG ≤ a ∧ a < memory_layout.ICCM_ORG + memory_layout.ICCM_SIZE) →
      HandOff.to_rt env = .halted .ADDRESS_NOT_IN_ICCM) := by
  unfold HandOff.to_rt
  cases hep : HandOff.rt_entry_point env with
  | error e0 =>
    refine ⟨?_, ?_⟩
    · intro a h
      cases h
    · intro a h
      cases h
  | ok a0 =>
    dsimp only
    unfold IccmAddr.validate_addr MemBounds.validate_addr
    by_cases hb : IccmBounds.ORG ≤ a0 ∧ a0 < IccmBounds.ORG + IccmBounds.SIZE
    · rw [if_pos hb]
      dsimp only
      refine ⟨?_, ?_⟩
      · intro a h
        cases h
        exact ⟨rfl, hb.1, hb.2⟩
      · intro a h hab
        cases h
        exact absurd hb hab
    · rw [if_neg hb]
      dsimp only
      refine ⟨?_, ?_⟩
      · intro a h
        cases h
      · intro a h _
        cases h
        rfl

/-- C4 witness: the addresses one below the origin and exactly at origin plus
size both halt with ADDRESS_NOT_IN_ICCM, while the origin itself is jumped to
and lies inside the region. -/
theorem to_rt_bounded_witness :
    HandOff.to_rt c4_env_low = .halted .ADDRESS_NOT_IN_ICCM ∧
    HandOff.to_rt c4_env_high = .halted .ADDRESS_NOT_IN_ICCM ∧
    HandOff.to_rt c4_env_in = .jumped 0x40000000 ∧
    memory_layout.ICCM_ORG ≤ 0x40000000 ∧
    (0x40000000 : Nat) < memory_layout.ICCM_ORG + memory_layout.ICCM_SIZE := by
  refine ⟨?_, ?_, rfl, ?_, ?_⟩
  · exact (to_rt_bounded c4_env_low).2 0x3FFFFFFF rfl (by decide)
  · exact (to_rt_bounded c4_env_high).2 0x40020000 rfl (by decide)
  · exact ((to_rt_bounded c4_env_in).1 0x40000000 rfl).2.1
  · exact ((to_rt_bounded c4_env_in).1 0x40000000 rfl).2.2

/-- C6: at runtime entry, when the handoff-table validity marker is not set
the stage halts with RUNTIME_HANDOFF_FHT_NOT_LOADED before reaching the
mailbox loop; conversely, the mailbox loop is reached only in states whose
marker is set. -/
theorem entry_point_requires_valid_fht (drivers_result : Except CaliptraError RtDrivers)
    (handle_mailbox_commands : RtDrivers → Except CaliptraError Unit) :
    (∀ d, drivers_result = .ok d → d.persistent_data.fht.is_valid = false →
      entry_point drivers_result handle_mailbox_commands =
        .halted .RUNTIME_HANDOFF_FHT_NOT_LOADED) ∧
    (∀ r, entry_point drivers_result handle_mailbox_commands = .mailboxLoop r →
      ∃ d, drivers_result = .ok d ∧ d.persistent_data.fht.is_valid = true) := by
  cases drivers_result with
  | error e =>
    refine ⟨?_, ?_⟩
    · intro d h
      cases h
    · intro r h
      simp [entry_point] at h
  | ok d0 =>
    by_cases hv : d0.persistent_data.fht.is_valid = true
    · refine ⟨?_, ?_⟩
      · intro d h hinv
        cases h
        rw [hv] at hinv
        cases hinv
      · intro r _
        exact ⟨d0, rfl, hv⟩
    · refine ⟨?_, ?_⟩
      · intro d h _
        cases h
        simp [entry_point, hv]
      · intro r h
        simp [entry_point, hv] at h

/-- C6 witness: with the marker cleared, the runtime entry halts with the
handoff-not-loaded condition instead of reaching the mailbox loop. -/
theorem entry_point_requires_valid_fht_witness :
    entry_point (.ok c6_drivers) (fun _ => .ok ()) = .halted .RUNTIME_HANDOFF_FHT_NOT_LOADED :=
  (entry_point_requires_valid_fht (.ok c6_drivers) (fun _ => .ok ())).1 c6_drivers rfl rfl

/-- C7: every accessor whose stored handle decodes to a matching kind
forwards to the vault read path its kind tag selects: the non-sticky kinds go
through the warm-reset reads, the sticky kinds through the cold-reset reads,
the key-vault kind yields the slot id; rt_min_svn accepts only the non-sticky
small kind and treats the sticky one as a fatal kind mismatch. -/
theorem accessors_select_vault_path (env : FmcEnv) (entry : Nat) (k : KeyId) :
    ((HandOff.fht env).fmc_cdi_kv_hdl.tryInto = .ok (.KeyVaultSlot k) →
      HandOff.fmc_cdi env = .ok k) ∧
    ((HandOff.fht env).fmc_priv_key_kv_hdl.tryInto = .ok (.KeyVaultSlot k) →
      HandOff.fmc_priv_key env = .ok k) ∧
    ((HandOff.fht env).fmc_pub_key_x_dv_hdl.tryInto = .ok (.DataVaultNonSticky48 entry) →
      HandOff.fmc_pub_key_x env = .ok (env.data_vault.read_warm_reset_entry48 entry)) ∧
    ((HandOff.fht env).fmc_pub_key_x_dv_hdl.tryInto = .ok (.DataVaultSticky48 entry) →
      HandOff.fmc_pub_key_x env = .ok (env.data_vault.read_cold_reset_entry48 entry)) ∧
    ((HandOff.fht env).fmc_pub_key_y_dv_hdl.tryInto = .ok (.DataVaultNonSticky48 entry) →
      HandOff.fmc_pub_key_y env = .ok (env.data_vault.read_warm_reset_entry48 entry)) ∧
    ((HandOff.fht env).fmc_pub_key_y_dv_hdl.tryInto = .ok (.DataVaultSticky48 entry) →
      HandOff.fmc_pub_key_y env = .ok (env.data_vault.read_cold_reset_entry48 entry)) ∧
    ((HandOff.fht env).rt_tci_dv_hdl.tryInto = .ok (.DataVaultNonSticky48 entry) →
      HandOff.rt_tci env = .ok (env.data_vault.read_warm_reset_entry48 entry)) ∧
    ((HandOff.fht env).rt_tci_dv_hdl.tryInto = .ok (.DataVaultSticky48 entry) →
      HandOff.rt_tci env = .ok (env.data_vault.read_cold_reset_entry48 entry)) ∧
    ((HandOff.fht env).rt_svn_dv_hdl.tryInto = .ok (.DataVaultNonSticky4 entry) →
      HandOff.rt_svn env = .ok (env.data_vault.read_warm_reset_entry4 entry)) ∧
    ((HandOff.fht env).rt_svn_dv_hdl.tryInto = .ok (.DataVaultSticky4 entry) →
      HandOff.rt_svn env = .ok (env.data_vault.read_cold_reset_entry4 entry)) ∧
    ((HandOff.fht env).rt_fw_entry_point_hdl.tryInto = .ok (.DataVaultNonSticky4 entry) →
      HandOff.rt_entry_point env = .ok (env.data_vault.read_warm_reset_entry4 entry)) ∧
    ((HandOff.fht env).rt_fw_entry_point_hdl.tryInto = .ok (.DataVaultSticky4 entry) →
      HandOff.rt_entry_point env = .ok (env.data_vault.read_cold_reset_entry4 entry)) ∧
    ((HandOff.fht env).rt_min_svn_dv_hdl.tryInto = .ok (.DataVaultNonSticky4 entry) →
      HandOff.rt_min_svn env = .ok (env.data_vault.read_warm_reset_entry4 entry)) ∧
    ((HandOff.fht env).rt_min_svn_dv_hdl.tryInto = .ok (.DataVaultSticky4 entry) →
      HandOff.rt_min_svn env = .error .FMC_HANDOFF_INVALID_PARAM) := by
  refine ⟨?_, ?_, ?_, ?_, ?_, ?_, ?_, ?_, ?_, ?_, ?_, ?_, ?_, ?_⟩
  · intro h
    simp [HandOff.fmc_cdi, h]
  · intro h
    simp [HandOff.fmc_priv_key, h]
  · intro h
    simp [HandOff.fmc_pub_key_x, h]
  · intro h
    simp [HandOff.fmc_pub_key_x, h]
  · intro h
    simp [HandOff.fmc_pub_key_y, h]
  · intro h
    simp [HandOff.fmc_pub_key_y, h]
  · intro h
    simp [HandOff.rt_tci, h]
  · intro h
    simp [HandOff.rt_tci, h]
  · intro h
    simp [HandOff.rt_svn, h]
  · intro h
    simp [HandOff.rt_svn, h]
  · intro h
    simp [HandOff.rt_entry_point, h]
  · intro h
    simp [HandOff.rt_entry_point, h]
  · intro h
    simp [HandOff.rt_min_svn, h]
  · intro h
    simp [HandOff.rt_min_svn, h]

/-- C7 witness: concrete kinds route concretely: the CDI key-vault handle
yields slot 5, the X coordinate comes from the warm-reset wide read, the Y
coordinate from the cold-reset wide read, the minimum SVN from the warm-reset
small read, and a sticky minimum-SVN handle is a fatal kind mismatch. -/
theorem accessors_select_vault_path_witness :
    HandOff.fmc_cdi c7_env = .ok 5 ∧
    HandOff.fmc_pub_key_x c7_env = .ok 11 ∧
    HandOff.fmc_pub_key_y c7_env = .ok 22 ∧
    HandOff.rt_min_svn c7_env = .ok 7 ∧
    HandOff.rt_min_svn c7_env2 = .error .FMC_HANDOFF_INVALID_PARAM := by
  refine ⟨?_, ?_, ?_, ?_, ?_⟩
  · exact (accessors_select_vault_path c7_env 0 5).1 rfl
  · exact (accessors_select_vault_path c7_env 0 5).2.2.1 rfl
  · exact (accessors_select_vault_path c7_env 0 5).2.2.2.2.2.1 rfl
  · exact (accessors_select_vault_path c7_env 0 5).2.2.2.2.2.2.2.2.2.2.2.2.1 rfl
  · exact (accessors_select_vault_path c7_env2 0 5).2.2.2.2.2.2.2.2.2.2.2.2.2 rfl

/-- Evaluation law for cert_from_dccm: the call succeeds exactly when the
template has the expected length and the buffer can hold the full certificate,
in which case it emits the full certificate followed by the untouched tail of
the buffer; otherwise it reports insufficient memory. -/
theorem cert_from_dccm_eval (env : RtCertEnv) (dv : DataVault) (buf : List Nat) (ct : CertType) :
    cert_from_dccm env dv buf ct =
      if (ct.tbs_of env).length = ct.tbs_template_len ∧
          (ct.full_cert env dv).length ≤ buf.length
      then .ok ((ct.full_cert env dv).length,
        ct.full_cert env dv ++ buf.drop (ct.full_cert env dv).length)
      else .error .RUNTIME_INSUFFICIENT_MEMORY := by
  cases ct <;>
    simp only [cert_from_dccm, CertType.tbs_of, CertType.sig_of, CertType.tbs_template_len,
      CertType.full_cert, Ecdsa384CertBuilder.new, Ecdsa384CertBuilder.build,
      Ecdsa384CertBuilder.cert_bytes, DataVault.ldev_dice_signature,
      DataVault.fmc_dice_signature] <;>
    split_ifs <;> simp_all
  all_goals (split_ifs <;> (first | rfl | omega))

/-- C8: cert_from_dccm fails with RUNTIME_INSUFFICIENT_MEMORY whenever the
builder cannot be constructed from the template or the buffer cannot hold the
certificate; when it returns Ok the size is the full certificate length and
the buffer holds the complete certificate followed by its old tail, so no
truncated certificate is ever produced; the two wrappers are cert_from_dccm at
their certificate types. -/
theorem cert_from_dccm_no_truncation (env : RtCertEnv) (dv : DataVault) (buf : List Nat)
    (ct : CertType) :
    ((ct.tbs_of env).length ≠ ct.tbs_template_len →
      cert_from_dccm env dv buf ct = .error .RUNTIME_INSUFFICIENT_MEMORY) ∧
    (buf.length < (ct.full_cert env dv).length →
      cert_from_dccm env dv buf ct = .error .RUNTIME_INSUFFICIENT_MEMORY) ∧
    (∀ size out, cert_from_dccm env dv buf ct = .ok (size, out) →
      size = (ct.full_cert env dv).length ∧ size ≤ buf.length ∧
      out.take size = ct.full_cert env dv ∧ out.length = buf.length) ∧
    copy_ldevid_cert env dv buf = cert_from_dccm env dv buf .LDevId ∧
    copy_fmc_alias_cert env dv buf = cert_from_dccm env dv buf .FmcAlias := by
  refine ⟨?_, ?_, ?_, rfl, rfl⟩
  · intro h
    rw [cert_from_dccm_eval, if_neg]
    intro hc
    exact h hc.1
  · intro h
    rw [cert_from_dccm_eval, if_neg]
    intro hc
    exact absurd hc.2 (Nat.not_le.mpr h)
  · intro size out hok
    rw [cert_from_dccm_eval] at hok
    split_ifs at hok with hc
    cases hok
    refine ⟨rfl, hc.2, List.take_left _ _, ?_⟩
    rw [List.length_append, List.length_drop]
    omega

/-- C8 witness: a wrong-length template fails, an undersized buffer fails,
and a buffer of exactly the certificate size receives the full six-byte
certificate (four template bytes, then the two signature components). -/
theorem cert_from_dccm_no_truncation_witness :
    cert_from_dccm c8_rce_bad dvC (List.replicate 6 0) .LDevId =
      .error .RUNTIME_INSUFFICIENT_MEMORY ∧
    cert_from_dccm c8_rce dvC [0, 0] .LDevId = .error .RUNTIME_INSUFFICIENT_MEMORY ∧
    cert_from_dccm c8_rce dvC [0, 0, 0, 0, 0, 0] .LDevId = .ok (6, [1, 2, 3, 4, 7, 8]) ∧
    (6 : Nat) = (CertType.full_cert .LDevId c8_rce dvC).length ∧
    ([1, 2, 3, 4, 7, 8] : List Nat).take 6 = CertType.full_cert .LDevId c8_rce dvC := by
  refine ⟨?_, ?_, rfl, ?_, ?_⟩
  · exact (cert_from_dccm_no_truncation c8_rce_bad dvC (List.replicate 6 0) .LDevId).1
      (by decide)
  · exact (cert_from_dccm_no_truncation c8_rce dvC [0, 0] .LDevId).2.1 (by decide)
  · exact ((cert_from_dccm_no_truncation c8_rce dvC [0, 0, 0, 0, 0, 0] .LDevId).2.2.1
      6 [1, 2, 3, 4, 7, 8] rfl).1
  · exact ((cert_from_dccm_no_truncation c8_rce dvC [0, 0, 0, 0, 0, 0] .LDevId).2.2.1
      6 [1, 2, 3, 4, 7, 8] rfl).2.2.1

/-- C9: certificate building is deterministic and depends only on the
template and the vault signature: for equal templates, equal signatures and
equally sized buffers, the emitted size and certificate bytes coincide. -/
theorem cert_build_deterministic (env env2 : RtCertEnv) (dv dv2 : DataVault)
    (b1 b2 : List Nat) (ct : CertType)
    (h1 : ct.tbs_of env = ct.tbs_of env2) (h2 : ct.sig_of dv = ct.sig_of dv2)
    (h3 : b1.length = b2.length) :
    cert_emitted (cert_from_dccm env dv b1 ct) = cert_emitted (cert_from_dccm env2 dv2 b2 ct) := by
  rw [cert_from_dccm_eval, cert_from_dccm_eval]
  simp only [CertType.full_cert, Ecdsa384CertBuilder.cert_bytes, h1, h2, h3]
  split_ifs with h
  · simp only [cert_emitted, List.take_left]
  · rfl

/-- C9 witness: two equally sized buffers with different initial contents
receive the same emitted certificate. -/
theorem cert_build_deterministic_witness :
    cert_emitted (cert_from_dccm c8_rce dvC [0, 0, 0, 0, 0, 0] .LDevId) =
      cert_emitted (cert_from_dccm c8_rce dvC [9, 9, 9, 9, 9, 9] .LDevId) :=
  cert_build_deterministic c8_rce c8_rce dvC dvC [0, 0, 0, 0, 0, 0] [9, 9, 9, 9, 9, 9]
    .LDevId rfl rfl rfl

end Caliptra
